import Mathlib

/-!
# Verification of the Question/Response data model of `app/Models/Questions.py`

This file is a shallow embedding of the quiz data model: the abstract
`Question` class with its four concrete variants (`MultipleChoiceQuestion`,
`MatchingQuestion`, `ShortAnswerQuestion`, `FillInTheBlankQuestion`), its
serialization (`json_data`), the `create_a_question` factory, response
attachment (`add_response`) and the variant-specific `validate_response`
methods.

Python dictionaries are modelled as insertion-ordered association lists over
string keys, with JSON-like values (`JValue`).  Python exceptions are
modelled by an error type `QError` with one constructor per `raise` site of
the source (plus Python's built-in `KeyError` for `dict.pop` on a missing
key, `AttributeError` for calling `.keys()` on a non-mapping, and `TypeError`
for bad keyword arguments).  Methods that can raise return `Except QError _`;
the mutation of a question by `add_response` is modelled by returning the
updated question.

The companion `Response` model (`app/Models/Response.py`) is not part of the
repository snapshot; it is modelled from the spec (see `Response` below).
-/

namespace Quiz

/-- JSON-like values: the value universe of the serialized mappings that the
model exchanges (`json_data` output, factory input).  A mapping is an
insertion-ordered association list, as a Python `dict` is. -/
inductive JValue where
  | jnull
  | jstr (s : String)
  | jlist (items : List JValue)
  | jobj (entries : List (String × JValue))

/-- A Python dictionary with string keys, insertion-ordered. -/
abbrev JDict := List (String × JValue)

/-- One constructor per `raise` site of `Questions.py` (and per built-in
Python exception the code can hit).  The source raises plain `ValueError`s
with distinct messages; the spec groups them into kinds (ValidationError,
UnsupportedTypeError, TypeMismatchError), recovered below by the
`is...Kind` classifiers. -/
inductive QError where
  /-- Python `KeyError` raised by `dict.pop(key)` when `key` is absent. -/
  | keyError (key : String)
  /-- Python `TypeError` from binding `**kwargs` against a constructor
  signature (unexpected or missing keyword argument). -/
  | typeErrorBadKwargs
  /-- Model artifact: a serialized field does not have the type declared by
  the source's annotations (`prompt: str`, `choices: List[str]`, ...).  The
  dynamically-typed source would store the ill-typed value; the typed model
  rejects it.  No claim exercises these inputs. -/
  | shapeError
  /-- `ValueError("The value passed to create_a_question_from_json must be
  question and have a type")`. -/
  | valueErrorMissingType
  /-- `ValueError("This question type is not supported: ...")`, carrying the
  unrecognized discriminator value. -/
  | valueErrorUnsupportedType (question_type : JValue)
  /-- `ValueError("Only Response objects are allowed")` in `add_response`. -/
  | valueErrorOnlyResponseObjects
  /-- `ValueError("Invalid response type: \x7b\x7d for a question of type:
  \x7b\x7d")` in `add_response` (the source never formats this message). -/
  | valueErrorResponseTypeMismatch
  /-- `ValueError("The key choice is not in the representation of this
  response ...")` in `MultipleChoiceQuestion.validate_response`. -/
  | valueErrorChoiceKeyMissing
  /-- `ValueError("Response choice present but not reflected in question
  choices")` in `MultipleChoiceQuestion.validate_response`. -/
  | valueErrorChoiceNotInChoices
  /-- `ValueError("The answer must be reflected in the choices")` in
  `MultipleChoiceQuestion.__init__`. -/
  | valueErrorAnswerNotInChoices
  /-- `ValueError("All left choices in the question must be reflected in the
  answer choices")` in `MatchingQuestion.__init__`. -/
  | valueErrorMatchingAnswerLeft
  /-- `ValueError("All of the right choices in the answer must be reflected
  in the question")` in `MatchingQuestion.__init__`. -/
  | valueErrorMatchingAnswerRight
  /-- `ValueError("There is no answer mapping present in the response ...")`
  in `MatchingQuestion.validate_response`. -/
  | valueErrorNoAnswerMapping
  /-- `ValueError("Left choices for the answer must be the same as the left
  choices for the question")` in `MatchingQuestion.validate_response`. -/
  | valueErrorLeftChoicesMismatch
  /-- `ValueError("Right_choices for this question object does not contain
  the key's specified in the response")` in
  `MatchingQuestion.validate_response`. -/
  | valueErrorRightChoicesMismatch
  /-- Python `AttributeError` from `response_json['answer_mapping'].keys()`
  when the stored value is not a mapping. -/
  | attributeErrorNoKeys

/-- Spec §7 `ValidationError`-kind: a structural invariant violated at
construction time, or a response payload failing variant-specific
validation. -/
def QError.isValidationKind : QError → Bool
  | .valueErrorAnswerNotInChoices | .valueErrorMatchingAnswerLeft
  | .valueErrorMatchingAnswerRight | .valueErrorChoiceKeyMissing
  | .valueErrorChoiceNotInChoices | .valueErrorNoAnswerMapping
  | .valueErrorLeftChoicesMismatch | .valueErrorRightChoicesMismatch => true
  | _ => false

/-- Spec §7 `UnsupportedTypeError`-kind: the discriminator names a variant
outside the known set. -/
def QError.isUnsupportedKind : QError → Bool
  | .valueErrorUnsupportedType _ => true
  | _ => false

/-- Spec §7 `TypeMismatchError`-kind: attaching a response whose type tag
does not match the owning question's type. -/
def QError.isTypeMismatchKind : QError → Bool
  | .valueErrorResponseTypeMismatch => true
  | _ => false

/-- Which `QError`s model a Python `ValueError` (as opposed to `KeyError`,
`TypeError` or `AttributeError`). -/
def QError.isValueErrorKind : QError → Bool
  | .keyError _ | .typeErrorBadKwargs | .shapeError | .attributeErrorNoKeys => false
  | _ => true

/-- `d.get(k)` of a Python dict: the value stored at the first entry with
key `k`, or `none` when the key is absent. -/
def dget : JDict → String → Option JValue
  | [], _ => none
  | (k, v) :: rest, key => if k = key then some v else dget rest key

/-- `k in d` of a Python dict. -/
def hasKey (d : JDict) (k : String) : Bool :=
  d.any (fun kv => kv.1 == k)

/-- `d.pop(k)` of a Python dict: removes the entry with key `k`, raising
`KeyError` when it is absent.  (The returned value is unused by the
source.) -/
def dpop (d : JDict) (k : String) : Except QError JDict :=
  if hasKey d k then .ok (d.filter (fun kv => kv.1 != k)) else .error (.keyError k)

/-- Python `value in xs` where `xs` is a list of strings and `value` an
arbitrary JSON value: true exactly when `value` is a string occurring in
`xs` (a non-string never equals a string in Python). -/
def jmem : JValue → List String → Bool
  | .jstr s, xs => xs.contains s
  | _, _ => false

/-- Python `value is None`. -/
def JValue.isNull : JValue → Bool
  | .jnull => true
  | _ => false

/-- `right_choice in self.right_choices or right_choice is None`, the
per-value test of `MatchingQuestion.validate_response`. -/
def jmemOrNone (v : JValue) (xs : List String) : Bool :=
  jmem v xs || v.isNull

/-- `list(dict.fromkeys(l))`: iterate `l`, keeping each element the first
time it is seen; `seen` is the set of keys already inserted. -/
def fromkeysAux (seen : List String) : List String → List String
  | [] => []
  | a :: rest =>
      if seen.contains a then fromkeysAux seen rest
      else a :: fromkeysAux (a :: seen) rest

/-- The source's ordered deduplication `list(dict.fromkeys(l))`
(`Questions.py` lines 108, 145, 146). -/
def fromkeys (l : List String) : List String := fromkeysAux [] l

/-- Stated from the spec's words, for comparison with `fromkeys`:
"removing duplicates while preserving first-occurrence order" — keep each
first occurrence, drop every later duplicate of it. -/
def removeDupsFirstOccur : List String → List String
  | [] => []
  | a :: rest => a :: removeDupsFirstOccur (rest.filter (fun b => b != a))
  termination_by l => l.length
  decreasing_by simp_wf; exact Nat.lt_succ_of_le (List.length_filter_le _ _)

/-- The `uuid.uuid4()` collaborator: an external producer of opaque unique
strings.  The spec puts uniqueness out of scope, so the model fixes one
opaque string; no claim depends on its value. -/
def uuid4 : String := "00000000-0000-0000-0000-000000000000"

/-- Modelled from the spec: `app/Models/Response.py` is not in the
repository snapshot.  Spec §4.2: a Response "carries a `type` tag and
variant-specific payload fields", serializes to a plain mapping
(`json_data`) and is reconstructed by a `create_a_response` factory that
"mirrors the Question factory pattern" (dispatches on a `type`
discriminator, the `type`/`kind` tags being separate from the payload
fields). -/
structure Response where
  type : String
  payload : JDict

/-- Spec §4.2: the payload holds the variant-specific fields; the `type` and
`kind` tags are separate from it (so serialization is unambiguous). -/
def Response.wf (r : Response) : Bool :=
  r.payload.all (fun kv => kv.1 != "type" && kv.1 != "kind")

/-- Modelled from the spec: a Response serializes to a plain mapping with
its tags and payload fields (the Question side consumes it via key lookup
only). -/
def Response.json_data (r : Response) : JDict :=
  ("kind", .jstr "response") :: ("type", .jstr r.type) :: r.payload

/-- Modelled from the spec: `Response.get_type` returns the type tag
(mirrors `Question.get_type`). -/
def Response.get_type (r : Response) : String := r.type

/-- Modelled from the spec: the `create_a_response` factory reads the
`type` discriminator from the mapping, strips the `type`/`kind` tags, and
keeps the remaining entries as the payload; it fails with a
`ValueError`-kind error when the discriminator is absent. -/
def Response.create_a_response (d : JDict) : Except QError Response :=
  match dget d "type" with
  | some (.jstr t) => .ok ⟨t, d.filter (fun kv => kv.1 != "type" && kv.1 != "kind")⟩
  | _ => .error .valueErrorMissingType

/-- A `responses` constructor argument: "A list of Responses in dictionary
or Response object format". -/
inductive RespIn where
  | dict (d : JDict)
  | resp (r : Response)

/-- The four concrete `Question` variants as one inductive type.  Each
variant carries exactly the fields the Python object stores
(`object_id`, the variant fields, and the private `_responses` list); the
`type` tag is determined by the variant (see `Question.get_type`). -/
inductive Question where
  | multipleChoice (object_id prompt : String) (choices : List String)
      (answer : String) (responses : List Response)
  | matching (object_id prompt : String) (left_choices right_choices : List String)
      (answer : List (String × String)) (responses : List Response)
  | shortAnswer (object_id prompt answer : String) (responses : List Response)
  | fillInTheBlank (object_id before_prompt after_prompt answer : String)
      (responses : List Response)

/-- `get_type`: the `type` tag set by each subclass's `super().__init__`
call. -/
def Question.get_type : Question → String
  | .multipleChoice .. => "multiple_choice"
  | .matching .. => "matching"
  | .shortAnswer .. => "short_answer"
  | .fillInTheBlank .. => "fill_in_the_blank"

/-- `get_responses`: the private `_responses` list. -/
def Question.get_responses : Question → List Response
  | .multipleChoice _ _ _ _ rs => rs
  | .matching _ _ _ _ _ rs => rs
  | .shortAnswer _ _ _ rs => rs
  | .fillInTheBlank _ _ _ _ rs => rs

/-- Replace the `_responses` list (the only field `add_response` mutates). -/
def Question.setResponses : Question → List Response → Question
  | .multipleChoice oid p c a _, rs => .multipleChoice oid p c a rs
  | .matching oid p l r a _, rs => .matching oid p l r a rs
  | .shortAnswer oid p a _, rs => .shortAnswer oid p a rs
  | .fillInTheBlank oid b aft a _, rs => .fillInTheBlank oid b aft a rs

/-- The stored `choices` attribute of a `MultipleChoiceQuestion` (`[]` on
the other variants, which have no such attribute). -/
def Question.choices : Question → List String
  | .multipleChoice _ _ c _ _ => c
  | _ => []

/-- The stored `left_choices` attribute of a `MatchingQuestion`. -/
def Question.left_choices : Question → List String
  | .matching _ _ l _ _ _ => l
  | _ => []

/-- The stored `right_choices` attribute of a `MatchingQuestion`. -/
def Question.right_choices : Question → List String
  | .matching _ _ _ r _ _ => r
  | _ => []

/-- The variant-specific `validate_response` methods, dispatched on the
concrete class.

* MultipleChoice (lines 121-127): requires a `choice` key in the response's
  serialization whose value is one of the question's `choices`.
* Matching (lines 154-167): requires an `answer_mapping` key; calling
  `.keys()` on a non-mapping value raises `AttributeError`; the key list
  must equal `left_choices` and every value must be `None` or a member of
  `right_choices`.  (The source's `assert len(right) == len(left)` always
  holds: keys and values of one dict have equal length.)
* ShortAnswer, FillInTheBlank: accept anything. -/
def Question.validate_response (q : Question) (response : Response) : Except QError Unit :=
  match q with
  | .multipleChoice _ _ choices _ _ =>
      let response_json := response.json_data
      match dget response_json "choice" with
      | none => .error .valueErrorChoiceKeyMissing
      | some choice =>
          if jmem choice choices then .ok () else .error .valueErrorChoiceNotInChoices
  | .matching _ _ left_choices right_choices _ _ =>
      let response_json := response.json_data
      if ¬ hasKey response_json "answer_mapping" then .error .valueErrorNoAnswerMapping
      else
        match dget response_json "answer_mapping" with
        | some (.jobj am) =>
            let left := am.map Prod.fst
            let right := am.map Prod.snd
            if ¬ left = left_choices then .error .valueErrorLeftChoicesMismatch
            else if ¬ right.all (fun rc => jmemOrNone rc right_choices) then
              .error .valueErrorRightChoicesMismatch
            else .ok ()
        | _ => .error .attributeErrorNoKeys
  | .shortAnswer .. => .ok ()
  | .fillInTheBlank .. => .ok ()

/-- `add_response` (lines 61-71): the type tags must match (else
`ValueError`, the spec's TypeMismatchError-kind), then the variant's
`validate_response` runs; only after both succeed is the response appended.
The `isinstance(response, Response)` guard always holds in the typed
model. -/
def Question.add_response (q : Question) (response : Response) : Except QError Question :=
  if response.get_type ≠ q.get_type then .error .valueErrorResponseTypeMismatch
  else
    match q.validate_response response with
    | .error e => .error e
    | .ok _ => .ok (q.setResponses (q.get_responses ++ [response]))

/-- `add_response` as a state transformer: the result of the call paired
with the question's state after it.  A raised error propagates and leaves
the question unchanged (the append is never reached). -/
def Question.add_response_run (q : Question) (response : Response) :
    Except QError Unit × Question :=
  match q.add_response response with
  | .ok q' => (.ok (), q')
  | .error e => (.error e, q)

/-- The `for response_object in response_objects: self.add_response(...)`
loop of `_initialize_responses`: attach in order, propagating the first
error. -/
def addAll (q : Question) : List Response → Except QError Question
  | [] => .ok q
  | r :: rest =>
      match q.add_response r with
      | .error e => .error e
      | .ok q' => addAll q' rest

/-- The list comprehension of `_initialize_responses`: each raw mapping goes
through `Response.create_a_response`, an already-constructed Response is
kept as is.  (Built in full before any attachment, as in the source.) -/
def toResponseObjects : List RespIn → Except QError (List Response)
  | [] => .ok []
  | .dict d :: rest => do
      let r ← Response.create_a_response d
      let rs ← toResponseObjects rest
      .ok (r :: rs)
  | .resp r :: rest => do
      let rs ← toResponseObjects rest
      .ok (r :: rs)

/-- `_initialize_responses` (lines 73-78): convert raw mappings to Response
objects, then attach each via `add_response` (an empty or `None` list is a
no-op). -/
def Question.initialize_responses (q : Question) (responses : List RespIn) :
    Except QError Question := do
  let response_objects ← toResponseObjects responses
  addAll q response_objects

/-- `MultipleChoiceQuestion.__init__` (lines 100-112), in source order:
assign `object_id` (fresh if `None`), store `prompt`, store the deduplicated
`choices`, store `answer`, run `_initialize_responses`, and only then check
that the answer is among the original `choices`. -/
def MultipleChoiceQuestion.init (prompt : String) (choices : List String) (answer : String)
    (responses : List RespIn) (object_id : Option String) : Except QError Question := do
  let oid := object_id.getD uuid4
  let q := Question.multipleChoice oid prompt (fromkeys choices) answer []
  let q ← q.initialize_responses responses
  if ¬ choices.contains answer then .error .valueErrorAnswerNotInChoices
  else .ok q

/-- `MatchingQuestion.__init__` (lines 131-152), in source order: assign
`object_id`, store `prompt`, store the deduplicated `left_choices` and
`right_choices`, store `answer`, check every answer value against the
(deduplicated) `left_choices`, then against the (deduplicated)
`right_choices`, then run `_initialize_responses`.  (The answer's keys are
never checked.) -/
def MatchingQuestion.init (prompt : String) (left_choices right_choices : List String)
    (answer : List (String × String)) (responses : List RespIn)
    (object_id : Option String) : Except QError Question := do
  let oid := object_id.getD uuid4
  let left := fromkeys left_choices
  let right := fromkeys right_choices
  if ¬ answer.all (fun kv => left.contains kv.2) then .error .valueErrorMatchingAnswerLeft
  else if ¬ answer.all (fun kv => right.contains kv.2) then .error .valueErrorMatchingAnswerRight
  else (Question.matching oid prompt left right answer []).initialize_responses responses

/-- `ShortAnswerQuestion.__init__` (lines 176-185). -/
def ShortAnswerQuestion.init (prompt answer : String) (responses : List RespIn)
    (object_id : Option String) : Except QError Question :=
  (Question.shortAnswer (object_id.getD uuid4) prompt answer []).initialize_responses responses

/-- `FillInTheBlankQuestion.init` models `FillInTheBlankQuestion.__init__`
(lines 197-211). -/
def FillInTheBlankQuestion.init (before_prompt after_prompt answer : String)
    (responses : List RespIn) (object_id : Option String) : Except QError Question :=
  (Question.fillInTheBlank (object_id.getD uuid4) before_prompt after_prompt answer
    []).initialize_responses responses

/-- The `json_data` property of each variant (source key order). -/
def Question.json_data : Question → JDict
  | .multipleChoice oid prompt choices answer rs =>
      [("kind", .jstr "question"), ("object_id", .jstr oid), ("type", .jstr "multiple_choice"),
       ("prompt", .jstr prompt), ("choices", .jlist (choices.map .jstr)),
       ("answer", .jstr answer),
       ("responses", .jlist (rs.map (fun r => .jobj r.json_data)))]
  | .matching oid prompt left right answer rs =>
      [("kind", .jstr "question"), ("object_id", .jstr oid), ("type", .jstr "matching"),
       ("prompt", .jstr prompt), ("left_choices", .jlist (left.map .jstr)),
       ("right_choices", .jlist (right.map .jstr)),
       ("answer", .jobj (answer.map (fun kv => (kv.1, .jstr kv.2)))),
       ("responses", .jlist (rs.map (fun r => .jobj r.json_data)))]
  | .shortAnswer oid prompt answer rs =>
      [("kind", .jstr "question"), ("object_id", .jstr oid), ("type", .jstr "short_answer"),
       ("prompt", .jstr prompt), ("answer", .jstr answer),
       ("responses", .jlist (rs.map (fun r => .jobj r.json_data)))]
  | .fillInTheBlank oid before_prompt after_prompt answer rs =>
      [("kind", .jstr "question"), ("object_id", .jstr oid),
       ("type", .jstr "fill_in_the_blank"), ("before_prompt", .jstr before_prompt),
       ("after_prompt", .jstr after_prompt), ("answer", .jstr answer),
       ("responses", .jlist (rs.map (fun r => .jobj r.json_data)))]

/-- Decode a serialized string field (the source's annotations declare these
fields `str`). -/
def decodeStr : JValue → Except QError String
  | .jstr s => .ok s
  | _ => .error .shapeError

/-- Decode a serialized list of strings. -/
def decodeStrs : List JValue → Except QError (List String)
  | [] => .ok []
  | v :: vs => do
      let s ← decodeStr v
      let rest ← decodeStrs vs
      .ok (s :: rest)

/-- Decode a `List[str]` field. -/
def decodeStrList : JValue → Except QError (List String)
  | .jlist vs => decodeStrs vs
  | _ => .error .shapeError

/-- Decode the entries of a serialized `Dict[str, str]` (the Matching
`answer`). -/
def decodePairs : List (String × JValue) → Except QError (List (String × String))
  | [] => .ok []
  | (k, v) :: rest => do
      let s ← decodeStr v
      let tail ← decodePairs rest
      .ok ((k, s) :: tail)

/-- Decode a `Dict[str, str]` field. -/
def decodeStrPairs : JValue → Except QError (List (String × String))
  | .jobj kvs => decodePairs kvs
  | _ => .error .shapeError

/-- Decode the items of a serialized `responses` list: each item is a
mapping handed to `Response.create_a_response`. -/
def decodeRespItems : List JValue → Except QError (List RespIn)
  | [] => .ok []
  | .jobj d :: rest => do
      let tail ← decodeRespItems rest
      .ok (.dict d :: tail)
  | _ :: _ => .error .shapeError

/-- Decode an optional `responses` keyword argument (`None` and an absent
key both mean no responses). -/
def decodeResponses (v : Option JValue) : Except QError (List RespIn) :=
  match v with
  | none => .ok []
  | some .jnull => .ok []
  | some (.jlist items) => decodeRespItems items
  | some _ => .error .shapeError

/-- Decode an optional `object_id` keyword argument (`None` and an absent
key both make the constructor generate a fresh id). -/
def decodeObjectId (v : Option JValue) : Except QError (Option String) :=
  match v with
  | none => .ok none
  | some .jnull => .ok none
  | some (.jstr s) => .ok (some s)
  | some _ => .error .shapeError

/-- Bind `**kwargs` for a constructor: every key of the mapping must be one
of the signature's parameter names (else Python raises `TypeError`). -/
def kwargsSubset (d : JDict) (allowed : List String) : Bool :=
  d.all (fun kv => allowed.contains kv.1)

/-- Fetch a required keyword argument (missing → Python `TypeError`). -/
def requiredArg (d : JDict) (k : String) : Except QError JValue :=
  match dget d k with
  | some v => .ok v
  | none => .error .typeErrorBadKwargs

/-- `MultipleChoiceQuestion(**d)`. -/
def mkMultipleChoice (d : JDict) : Except QError Question := do
  if ¬ kwargsSubset d ["prompt", "choices", "answer", "responses", "object_id"] then
    .error .typeErrorBadKwargs
  else
    let prompt ← decodeStr (← requiredArg d "prompt")
    let choices ← decodeStrList (← requiredArg d "choices")
    let answer ← decodeStr (← requiredArg d "answer")
    let responses ← decodeResponses (dget d "responses")
    let object_id ← decodeObjectId (dget d "object_id")
    MultipleChoiceQuestion.init prompt choices answer responses object_id

/-- `MatchingQuestion(**d)`. -/
def mkMatching (d : JDict) : Except QError Question := do
  if ¬ kwargsSubset d ["prompt", "left_choices", "right_choices", "answer", "responses",
      "object_id"] then
    .error .typeErrorBadKwargs
  else
    let prompt ← decodeStr (← requiredArg d "prompt")
    let left_choices ← decodeStrList (← requiredArg d "left_choices")
    let right_choices ← decodeStrList (← requiredArg d "right_choices")
    let answer ← decodeStrPairs (← requiredArg d "answer")
    let responses ← decodeResponses (dget d "responses")
    let object_id ← decodeObjectId (dget d "object_id")
    MatchingQuestion.init prompt left_choices right_choices answer responses object_id

/-- `ShortAnswerQuestion(**d)`. -/
def mkShortAnswer (d : JDict) : Except QError Question := do
  if ¬ kwargsSubset d ["prompt", "answer", "responses", "object_id"] then
    .error .typeErrorBadKwargs
  else
    let prompt ← decodeStr (← requiredArg d "prompt")
    let answer ← decodeStr (← requiredArg d "answer")
    let responses ← decodeResponses (dget d "responses")
    let object_id ← decodeObjectId (dget d "object_id")
    ShortAnswerQuestion.init prompt answer responses object_id

/-- `FillInTheBlankQuestion(**d)`. -/
def mkFillInTheBlank (d : JDict) : Except QError Question := do
  if ¬ kwargsSubset d ["before_prompt", "after_prompt", "answer", "responses", "object_id"] then
    .error .typeErrorBadKwargs
  else
    let before_prompt ← decodeStr (← requiredArg d "before_prompt")
    let after_prompt ← decodeStr (← requiredArg d "after_prompt")
    let answer ← decodeStr (← requiredArg d "answer")
    let responses ← decodeResponses (dget d "responses")
    let object_id ← decodeObjectId (dget d "object_id")
    FillInTheBlankQuestion.init before_prompt after_prompt answer responses object_id

/-- The static factory `Question.create_a_question` (lines 27-59) on a
mapping input, in source order: `question_type = d.get('type')`, then
`d.pop('type')` (KeyError when absent!), then `d.pop('kind')` (KeyError when
absent!), then the `question_type is None` guard, then dispatch on the
discriminator, else the "not supported" error.  The `deepcopy` and the
Question/str input branches are identity/IO-free and take no part in the
claims; the input here is the mapping itself. -/
def create_a_question (question_representation : JDict) : Except QError Question := do
  let json_as_dictionary := question_representation
  let question_type := dget json_as_dictionary "type"
  let d1 ← dpop json_as_dictionary "type"
  let d2 ← dpop d1 "kind"
  match question_type with
  | none => .error .valueErrorMissingType
  | some .jnull => .error .valueErrorMissingType
  | some (.jstr "multiple_choice") => mkMultipleChoice d2
  | some (.jstr "matching") => mkMatching d2
  | some (.jstr "short_answer") => mkShortAnswer d2
  | some (.jstr "fill_in_the_blank") => mkFillInTheBlank d2
  | some qt => .error (.valueErrorUnsupportedType qt)

/-- `Except.ok`-ness as a boolean. -/
def exceptOk {α : Type} (x : Except QError α) : Bool :=
  match x with
  | .ok _ => true
  | .error _ => false

/-- The four discriminator values `create_a_question` dispatches on. -/
def isKnownTag : JValue → Bool
  | .jstr s =>
      s == "multiple_choice" || s == "matching" || s == "short_answer" ||
      s == "fill_in_the_blank"
  | _ => false

/-- A question state reachable by a successful construction: the stored
choice lists are deduplicated, the construction-time invariants hold, and
every attached response carries the question's type tag, a well-formed
payload, and passes the variant's `validate_response`. -/
def Question.valid (q : Question) : Bool :=
  (match q with
   | .multipleChoice _ _ choices answer _ =>
       fromkeys choices == choices && choices.contains answer
   | .matching _ _ left right answer _ =>
       fromkeys left == left && fromkeys right == right &&
       answer.all (fun kv => left.contains kv.2 && right.contains kv.2)
   | .shortAnswer .. => true
   | .fillInTheBlank .. => true) &&
  q.get_responses.all (fun r =>
    r.type == q.get_type && r.wf && exceptOk (q.validate_response r))

/-! ## Dictionary lemmas -/

theorem dget_some_hasKey {d : JDict} {k : String} {v : JValue} (h : dget d k = some v) :
    hasKey d k = true := by
  induction d with
  | nil => simp [dget] at h
  | cons kv rest ih =>
      rw [dget] at h
      by_cases hk : kv.1 = k
      · simp [hasKey, hk]
      · rw [if_neg hk] at h
        simp [hasKey, List.any_cons]
        exact Or.inr (by simpa [hasKey] using ih h)

theorem hasKey_filter_false {d : JDict} {k : String} (p : String × JValue → Bool)
    (h : hasKey d k = false) : hasKey (d.filter p) k = false := by
  simp only [hasKey, List.any_eq_false] at h ⊢
  intro kv hkv
  exact h kv (List.mem_of_mem_filter hkv)

theorem hasKey_filter_ne {d : JDict} {k k' : String} (h : hasKey d k = true)
    (hne : k ≠ k') : hasKey (d.filter (fun kv => kv.1 != k')) k = true := by
  simp only [hasKey, List.any_eq_true] at h ⊢
  obtain ⟨kv, hmem, hk⟩ := h
  refine ⟨kv, List.mem_filter.2 ⟨hmem, ?_⟩, hk⟩
  have : kv.1 = k := by simpa using hk
  simp [this, hne]

theorem hasKey_eq_isSome (d : JDict) (k : String) : hasKey d k = (dget d k).isSome := by
  induction d with
  | nil => rfl
  | cons kv rest ih =>
      rw [hasKey, List.any_cons, dget]
      by_cases hk : kv.1 = k
      · simp [hk]
      · rw [if_neg hk]
        have : (kv.1 == k) = false := by rw [beq_eq_false_iff_ne]; exact hk
        rw [this, Bool.false_or, ← ih, hasKey]

theorem json_data_dget_payload (r : Response) (k : String) (h1 : k ≠ "kind")
    (h2 : k ≠ "type") : dget r.json_data k = dget r.payload k := by
  rw [Response.json_data, dget, if_neg (fun hh => h1 hh.symm), dget,
    if_neg (fun hh => h2 hh.symm)]

theorem json_data_hasKey_payload (r : Response) (k : String) (h1 : k ≠ "kind")
    (h2 : k ≠ "type") : hasKey r.json_data k = hasKey r.payload k := by
  rw [Response.json_data, hasKey, List.any_cons, List.any_cons]
  have b1 : (("kind", JValue.jstr "response").1 == k) = false := by
    rw [beq_eq_false_iff_ne]; exact fun hh => h1 hh.symm
  have b2 : (("type", JValue.jstr r.type).1 == k) = false := by
    rw [beq_eq_false_iff_ne]; exact fun hh => h2 hh.symm
  rw [b1, b2, Bool.false_or, Bool.false_or, hasKey]

/-! ## Claims about the factory's key handling -/

/-- **C1.**  The claim says a mapping lacking a `type` key makes
`create_a_question` fail with a `ValueError`-kind error.  The code instead
hits `json_as_dictionary.pop('type')`, which raises `KeyError` for an
absent key, before its `ValueError` guard can run: evaluating the factory
at the mapping `{"kind": "question"}` (no `type` key) yields `KeyError
('type')`, which is not a `ValueError`-kind error. -/
theorem create_a_question_missing_type_is_keyerror :
    create_a_question [("kind", JValue.jstr "question")] =
      .error (.keyError "type") ∧
    (QError.keyError "type").isValueErrorKind = false :=
  ⟨rfl, rfl⟩

/-- **C10.**  Any mapping containing a `type` key but no `kind` key makes
`create_a_question` fail with `KeyError('kind')`: the factory
unconditionally pops `kind` before dispatching. -/
theorem create_a_question_missing_kind_is_keyerror (d : JDict)
    (htype : hasKey d "type" = true) (hkind : hasKey d "kind" = false) :
    create_a_question d = .error (.keyError "kind") := by
  have h1 : dpop d "type" = .ok (d.filter (fun kv => kv.1 != "type")) := by
    simp [dpop, htype]
  have h2 : dpop (d.filter (fun kv => kv.1 != "type")) "kind" =
      .error (.keyError "kind") := by
    simp [dpop, hasKey_filter_false _ hkind]
  simp [create_a_question, h1, h2, bind, Except.bind]

theorem create_a_question_missing_kind_is_keyerror_witness :
    hasKey [("type", JValue.jstr "multiple_choice")] "type" = true ∧
    hasKey [("type", JValue.jstr "multiple_choice")] "kind" = false ∧
    create_a_question [("type", JValue.jstr "multiple_choice")] =
      .error (.keyError "kind") :=
  ⟨rfl, rfl, create_a_question_missing_kind_is_keyerror _ rfl rfl⟩

/-- **C5, counterexample.**  The claim quantifies over every mapping whose
`type` discriminator is present but unknown; but on `{"type":
"unknown_kind"}` (no `kind` key) the factory fails with `KeyError('kind')`,
not with the UnsupportedTypeError-kind `ValueError`. -/
theorem create_a_question_unknown_type_without_kind_is_keyerror :
    create_a_question [("type", JValue.jstr "unknown_kind")] =
      .error (.keyError "kind") ∧
    (QError.keyError "kind").isUnsupportedKind = false :=
  ⟨rfl, rfl⟩

/-- **C5, amended.**  For every mapping that contains a `kind` key and whose
`type` key holds a non-null value that is not one of the four known
discriminators, `create_a_question` fails with the UnsupportedTypeError-kind
error carrying that discriminator. -/
theorem create_a_question_unknown_type_unsupported (d : JDict) (v : JValue)
    (hget : dget d "type" = some v) (hnull : v.isNull = false)
    (hkind : hasKey d "kind" = true) (hunk : isKnownTag v = false) :
    create_a_question d = .error (.valueErrorUnsupportedType v) := by
  have htype : hasKey d "type" = true := dget_some_hasKey hget
  have h1 : dpop d "type" = .ok (d.filter (fun kv => kv.1 != "type")) := by
    simp [dpop, htype]
  have hkind' : hasKey (d.filter (fun kv => kv.1 != "type")) "kind" = true :=
    hasKey_filter_ne hkind (by decide)
  have h2 : dpop (d.filter (fun kv => kv.1 != "type")) "kind" =
      .ok ((d.filter (fun kv => kv.1 != "type")).filter (fun kv => kv.1 != "kind")) := by
    simp [dpop, hkind']
  rw [create_a_question]
  simp only [hget, h1, h2, bind, Except.bind]
  match v, hnull, hunk with
  | .jstr s, _, hunk =>
      have h1 : s ≠ "multiple_choice" := by
        intro h; rw [isKnownTag, h] at hunk; simp at hunk
      have h2 : s ≠ "matching" := by
        intro h; rw [isKnownTag, h] at hunk; simp at hunk
      have h3 : s ≠ "short_answer" := by
        intro h; rw [isKnownTag, h] at hunk; simp at hunk
      have h4 : s ≠ "fill_in_the_blank" := by
        intro h; rw [isKnownTag, h] at hunk; simp at hunk
      simp [h1, h2, h3, h4]
  | .jlist items, _, _ => rfl
  | .jobj entries, _, _ => rfl

theorem create_a_question_unknown_type_unsupported_witness :
    dget [("type", JValue.jstr "unknown_kind"), ("kind", JValue.jstr "question")] "type" =
      some (JValue.jstr "unknown_kind") ∧
    (JValue.jstr "unknown_kind").isNull = false ∧
    hasKey [("type", JValue.jstr "unknown_kind"), ("kind", JValue.jstr "question")] "kind" =
      true ∧
    isKnownTag (JValue.jstr "unknown_kind") = false ∧
    create_a_question [("type", JValue.jstr "unknown_kind"), ("kind", JValue.jstr "question")] =
      .error (.valueErrorUnsupportedType (JValue.jstr "unknown_kind")) :=
  ⟨rfl, rfl, rfl, rfl,
    create_a_question_unknown_type_unsupported _ _ rfl rfl rfl rfl⟩

/-- **C3.**  Attaching a response whose type tag differs from the question's
fails with the TypeMismatchError-kind error, and the question's response
sequence after the failed call is exactly what it was before. -/
theorem add_response_type_mismatch (q : Question) (r : Response)
    (h : r.type ≠ q.get_type) :
    q.add_response_run r = (.error .valueErrorResponseTypeMismatch, q) ∧
    (q.add_response_run r).2.get_responses = q.get_responses ∧
    QError.valueErrorResponseTypeMismatch.isTypeMismatchKind = true := by
  have : q.add_response r = .error .valueErrorResponseTypeMismatch := by
    rw [Question.add_response, if_pos]
    exact h
  refine ⟨?_, ?_, rfl⟩
  · rw [Question.add_response_run, this]
  · rw [Question.add_response_run, this]

/-! ## Structure lemmas for `add_response` and the constructors -/

theorem setResponses_setResponses (q : Question) (a b : List Response) :
    (q.setResponses a).setResponses b = q.setResponses b := by
  cases q <;> rfl

theorem setResponses_get_responses (q : Question) :
    q.setResponses q.get_responses = q := by
  cases q <;> rfl

theorem get_responses_setResponses (q : Question) (rs : List Response) :
    (q.setResponses rs).get_responses = rs := by
  cases q <;> rfl

theorem get_type_setResponses (q : Question) (rs : List Response) :
    (q.setResponses rs).get_type = q.get_type := by
  cases q <;> rfl

theorem validate_response_setResponses (q : Question) (rs : List Response) (r : Response) :
    (q.setResponses rs).validate_response r = q.validate_response r := by
  cases q <;> rfl

theorem add_response_ok_shape {q q' : Question} {r : Response}
    (h : q.add_response r = .ok q') :
    q' = q.setResponses (q.get_responses ++ [r]) := by
  rw [Question.add_response] at h
  by_cases hty : r.get_type ≠ q.get_type
  · rw [if_pos hty] at h; cases h
  · rw [if_neg hty] at h
    cases hv : q.validate_response r with
    | error e => rw [hv] at h; cases h
    | ok u => rw [hv] at h; cases h; rfl

theorem addAll_ok_shape {rs : List Response} {q q' : Question}
    (h : addAll q rs = .ok q') :
    q' = q.setResponses q'.get_responses := by
  induction rs generalizing q with
  | nil =>
      rw [addAll] at h; cases h; exact (setResponses_get_responses q').symm
  | cons r rest ih =>
      rw [addAll] at h
      cases ha : q.add_response r with
      | error e => rw [ha] at h; cases h
      | ok q1 =>
          rw [ha] at h
          have h1 := add_response_ok_shape ha
          have h2 := ih h
          exact h2.trans (by rw [h1, setResponses_setResponses])

theorem initialize_responses_ok_shape {q q' : Question} {rs : List RespIn}
    (h : q.initialize_responses rs = .ok q') :
    q' = q.setResponses q'.get_responses := by
  rw [Question.initialize_responses] at h
  simp only [bind, Except.bind] at h
  cases ht : toResponseObjects rs with
  | error e => rw [ht] at h; cases h
  | ok objs => rw [ht] at h; exact addAll_ok_shape h

/-! ## Ordered deduplication -/

theorem fromkeysAux_eq_removeDups (l : List String) :
    ∀ seen, fromkeysAux seen l =
      removeDupsFirstOccur (l.filter (fun a => !seen.contains a)) := by
  induction l with
  | nil => intro seen; rw [fromkeysAux, List.filter_nil, removeDupsFirstOccur]
  | cons a rest ih =>
      intro seen
      cases hc : seen.contains a with
      | true =>
          rw [fromkeysAux, if_pos hc]
          have hfc : List.filter (fun x => !seen.contains x) (a :: rest) =
              List.filter (fun x => !seen.contains x) rest := by
            rw [List.filter_cons, if_neg (by rw [hc]; decide)]
          rw [hfc]
          exact ih seen
      | false =>
          rw [fromkeysAux, if_neg (by simp only [hc]; decide)]
          have hfc : List.filter (fun x => !seen.contains x) (a :: rest) =
              a :: List.filter (fun x => !seen.contains x) rest := by
            rw [List.filter_cons, if_pos (by rw [hc]; decide)]
          rw [hfc, removeDupsFirstOccur, List.filter_filter, ih (a :: seen)]
          have hpred : List.filter (fun x => !(a :: seen).contains x) rest =
              List.filter (fun b => b != a && !seen.contains b) rest := by
            refine List.filter_congr ?_
            intro b _
            by_cases hba : b = a
            · subst hba; simp [List.contains_cons]
            · simp [List.contains_cons, hba, Bool.not_or]
          rw [hpred]

theorem fromkeys_eq_removeDups (l : List String) :
    fromkeys l = removeDupsFirstOccur l := by
  rw [fromkeys, fromkeysAux_eq_removeDups l []]
  congr 1
  simp

theorem mem_fromkeysAux (l : List String) :
    ∀ seen a, a ∈ fromkeysAux seen l ↔ (a ∈ l ∧ a ∉ seen) := by
  induction l with
  | nil => intro seen a; simp [fromkeysAux]
  | cons b rest ih =>
      intro seen a
      by_cases hc : seen.contains b = true
      · rw [fromkeysAux, if_pos hc]
        have hb : b ∈ seen := by simpa using hc
        rw [ih seen a]
        constructor
        · exact fun ⟨h1, h2⟩ => ⟨List.mem_cons_of_mem _ h1, h2⟩
        · rintro ⟨h1, h2⟩
          rcases List.mem_cons.1 h1 with rfl | h1
          · exact absurd hb h2
          · exact ⟨h1, h2⟩
      · have hb : b ∉ seen := by
          intro hmem
          exact hc (by simpa using hmem)
        rw [fromkeysAux, if_neg (by simpa using hb)]
        constructor
        · intro hmem
          rcases List.mem_cons.1 hmem with rfl | hmem
          · exact ⟨List.mem_cons_self _ _, hb⟩
          · have := (ih (b :: seen) a).1 hmem
            exact ⟨List.mem_cons_of_mem _ this.1,
              fun hs => this.2 (List.mem_cons_of_mem _ hs)⟩
        · rintro ⟨h1, h2⟩
          rcases List.mem_cons.1 h1 with rfl | h1
          · exact List.mem_cons_self _ _
          · by_cases hab : a = b
            · subst hab; exact List.mem_cons_self _ _
            · exact List.mem_cons_of_mem _ ((ih (b :: seen) a).2
                ⟨h1, by simp [hab, h2]⟩)

theorem mem_fromkeys {l : List String} {a : String} : a ∈ fromkeys l ↔ a ∈ l := by
  rw [fromkeys]
  simpa using mem_fromkeysAux l [] a

/-! ## Dissecting the constructors -/

theorem mc_init_ok_elim {p : String} {c : List String} {a : String} {rs : List RespIn}
    {oid : Option String} {q : Question}
    (h : MultipleChoiceQuestion.init p c a rs oid = .ok q) :
    c.contains a = true ∧
    (Question.multipleChoice (oid.getD uuid4) p (fromkeys c) a
      []).initialize_responses rs = .ok q := by
  rw [MultipleChoiceQuestion.init] at h
  simp only [bind, Except.bind] at h
  cases hinit : (Question.multipleChoice (oid.getD uuid4) p (fromkeys c) a
      []).initialize_responses rs with
  | error e => rw [hinit] at h; simp at h
  | ok q1 =>
      rw [hinit] at h
      have h' : (if ¬ c.contains a = true then
          Except.error QError.valueErrorAnswerNotInChoices else Except.ok q1) =
          Except.ok q := h
      cases hceq : c.contains a with
      | false => rw [if_pos (by simp only [hceq]; decide)] at h'; simp at h'
      | true =>
          rw [if_neg (by simp only [hceq]; decide)] at h'
          cases h'
          exact ⟨rfl, rfl⟩

theorem matching_init_ok_elim {p : String} {l r : List String}
    {ans : List (String × String)} {rs : List RespIn} {oid : Option String} {q : Question}
    (h : MatchingQuestion.init p l r ans rs oid = .ok q) :
    ans.all (fun kv => (fromkeys l).contains kv.2) = true ∧
    ans.all (fun kv => (fromkeys r).contains kv.2) = true ∧
    (Question.matching (oid.getD uuid4) p (fromkeys l) (fromkeys r) ans
      []).initialize_responses rs = .ok q := by
  rw [MatchingQuestion.init] at h
  cases h1 : ans.all (fun kv => (fromkeys l).contains kv.2) with
  | false => rw [if_pos (by simp only [h1]; decide)] at h; simp at h
  | true =>
      rw [if_neg (by simp only [h1]; decide)] at h
      cases h2 : ans.all (fun kv => (fromkeys r).contains kv.2) with
      | false => rw [if_pos (by simp only [h2]; decide)] at h; simp at h
      | true =>
          rw [if_neg (by simp only [h2]; decide)] at h
          exact ⟨rfl, rfl, h⟩

/-- **C8.**  Every choice list stored by a constructor
(`MultipleChoiceQuestion.choices`, `MatchingQuestion.left_choices` and
`right_choices`) equals the input list with duplicates removed preserving
first-occurrence order; in particular `["a","b","a","c"]` is stored as
`["a","b","c"]`. -/
theorem stored_choices_are_first_occurrence_dedup :
    (∀ (prompt : String) (choices : List String) (answer : String)
       (responses : List RespIn) (object_id : Option String) (q : Question),
       MultipleChoiceQuestion.init prompt choices answer responses object_id = .ok q →
       q.choices = removeDupsFirstOccur choices) ∧
    (∀ (prompt : String) (left right : List String) (answer : List (String × String))
       (responses : List RespIn) (object_id : Option String) (q : Question),
       MatchingQuestion.init prompt left right answer responses object_id = .ok q →
       q.left_choices = removeDupsFirstOccur left ∧
       q.right_choices = removeDupsFirstOccur right) ∧
    removeDupsFirstOccur ["a", "b", "a", "c"] = ["a", "b", "c"] := by
  refine ⟨?_, ?_, by simp [removeDupsFirstOccur]⟩
  · intro p c a rs oid q h
    obtain ⟨-, hinit⟩ := mc_init_ok_elim h
    have hshape := initialize_responses_ok_shape hinit
    rw [hshape, ← fromkeys_eq_removeDups]
    rfl
  · intro p l r ans rs oid q h
    obtain ⟨-, -, hinit⟩ := matching_init_ok_elim h
    have hshape := initialize_responses_ok_shape hinit
    rw [hshape, ← fromkeys_eq_removeDups, ← fromkeys_eq_removeDups]
    exact ⟨rfl, rfl⟩

theorem stored_choices_are_first_occurrence_dedup_witness :
    MultipleChoiceQuestion.init "p" ["a", "b", "a", "c"] "a" [] none =
      .ok (Question.multipleChoice uuid4 "p" ["a", "b", "c"] "a" []) ∧
    (Question.multipleChoice uuid4 "p" ["a", "b", "c"] "a" []).choices =
      removeDupsFirstOccur ["a", "b", "a", "c"] ∧
    MatchingQuestion.init "p" ["x", "x", "u"] ["u", "v", "u"] [("x", "u")] [] none =
      .ok (Question.matching uuid4 "p" ["x", "u"] ["u", "v"] [("x", "u")] []) ∧
    (Question.matching uuid4 "p" ["x", "u"] ["u", "v"] [("x", "u")] []).left_choices =
      removeDupsFirstOccur ["x", "x", "u"] :=
  ⟨rfl,
    stored_choices_are_first_occurrence_dedup.1 "p" ["a", "b", "a", "c"] "a" [] none _ rfl,
    rfl,
    (stored_choices_are_first_occurrence_dedup.2.1 "p" ["x", "x", "u"] ["u", "v", "u"]
      [("x", "u")] [] none _ rfl).1⟩

/-- **C9.**  Constructing a MultipleChoiceQuestion whose answer is not among
the choices fails with the ValidationError-kind error, and a construction
succeeds only when the answer is one of the original choices. -/
theorem mc_answer_must_be_among_choices :
    (∀ (prompt : String) (choices : List String) (answer : String)
       (object_id : Option String),
       choices.contains answer = false →
       MultipleChoiceQuestion.init prompt choices answer [] object_id =
         .error .valueErrorAnswerNotInChoices ∧
       QError.valueErrorAnswerNotInChoices.isValidationKind = true) ∧
    (∀ (prompt : String) (choices : List String) (answer : String)
       (responses : List RespIn) (object_id : Option String) (q : Question),
       MultipleChoiceQuestion.init prompt choices answer responses object_id = .ok q →
       answer ∈ choices) := by
  constructor
  · intro p c a oid hna
    refine ⟨?_, rfl⟩
    rw [MultipleChoiceQuestion.init]
    show (if ¬ c.contains a = true then Except.error QError.valueErrorAnswerNotInChoices
        else Except.ok (Question.multipleChoice (oid.getD uuid4) p (fromkeys c) a [])) =
      Except.error QError.valueErrorAnswerNotInChoices
    rw [if_pos (by simp only [hna]; decide)]
  · intro p c a rs oid q h
    have := (mc_init_ok_elim h).1
    simpa using this

theorem mc_answer_must_be_among_choices_witness :
    (["a", "b"] : List String).contains "c" = false ∧
    MultipleChoiceQuestion.init "p" ["a", "b"] "c" [] none =
      .error .valueErrorAnswerNotInChoices ∧
    MultipleChoiceQuestion.init "p" ["a", "b"] "a" [] none =
      .ok (Question.multipleChoice uuid4 "p" ["a", "b"] "a" []) ∧
    "a" ∈ (["a", "b"] : List String) :=
  ⟨rfl,
    (mc_answer_must_be_among_choices.1 "p" ["a", "b"] "c" none rfl).1,
    rfl,
    mc_answer_must_be_among_choices.2 "p" ["a", "b"] "a" [] none _ rfl⟩

theorem add_response_type_mismatch_witness :
    (Response.mk "multiple_choice" []).type ≠
      (Question.shortAnswer "id" "p" "a" []).get_type ∧
    (Question.shortAnswer "id" "p" "a" []).add_response_run
        (Response.mk "multiple_choice" []) =
      (.error .valueErrorResponseTypeMismatch, Question.shortAnswer "id" "p" "a" []) :=
  ⟨by decide,
    (add_response_type_mismatch (Question.shortAnswer "id" "p" "a" [])
      (Response.mk "multiple_choice" []) (by decide)).1⟩

/-! ## Serialization round-trip lemmas -/

theorem exceptOk_unit {x : Except QError Unit} (h : exceptOk x = true) : x = .ok () := by
  cases x with
  | ok u => cases u; rfl
  | error e => simp [exceptOk] at h

theorem decodeStrs_map (l : List String) : decodeStrs (l.map .jstr) = .ok l := by
  induction l with
  | nil => rfl
  | cons s rest ih =>
      simp only [List.map_cons, decodeStrs, decodeStr, bind, Except.bind, ih]

theorem decodePairs_map (ans : List (String × String)) :
    decodePairs (ans.map (fun kv => (kv.1, .jstr kv.2))) = .ok ans := by
  induction ans with
  | nil => rfl
  | cons kv rest ih =>
      simp only [List.map_cons, decodePairs, decodeStr, bind, Except.bind, ih,
        Prod.mk.eta]

theorem decodeRespItems_map (rs : List Response) :
    decodeRespItems (rs.map (fun r => .jobj r.json_data)) =
      .ok (rs.map (fun r => RespIn.dict r.json_data)) := by
  induction rs with
  | nil => rfl
  | cons r rest ih =>
      simp only [List.map_cons, decodeRespItems, bind, Except.bind, ih]

theorem create_a_response_json (r : Response) (h : r.wf = true) :
    Response.create_a_response r.json_data = .ok r := by
  obtain ⟨t, pl⟩ := r
  rw [Response.wf] at h
  have hfl : pl.filter (fun kv => kv.1 != "type" && kv.1 != "kind") = pl :=
    List.filter_eq_self.2 (fun a ha => List.all_eq_true.1 h a ha)
  rw [Response.create_a_response]
  have hg : dget (Response.json_data ⟨t, pl⟩) "type" = some (.jstr t) := by
    rw [Response.json_data, dget, if_neg (by decide), dget, if_pos rfl]
  rw [hg]
  show Except.ok (Response.mk t ((Response.json_data ⟨t, pl⟩).filter
      (fun kv => kv.1 != "type" && kv.1 != "kind"))) = Except.ok (Response.mk t pl)
  rw [Response.json_data]
  simp [hfl]

theorem toResponseObjects_map (rs : List Response) (h : ∀ r ∈ rs, r.wf = true) :
    toResponseObjects (rs.map (fun r => RespIn.dict r.json_data)) = .ok rs := by
  induction rs with
  | nil => rfl
  | cons r rest ih =>
      simp only [List.map_cons, toResponseObjects, bind, Except.bind,
        create_a_response_json r (h r (List.mem_cons_self _ _)),
        ih (fun r' hr' => h r' (List.mem_cons_of_mem _ hr'))]

theorem addAll_ok_of_valid (rs : List Response) : ∀ (q : Question),
    (∀ r ∈ rs, r.get_type = q.get_type ∧ q.validate_response r = .ok ()) →
    addAll q rs = .ok (q.setResponses (q.get_responses ++ rs)) := by
  induction rs with
  | nil => intro q _; rw [addAll, List.append_nil, setResponses_get_responses]
  | cons r rest ih =>
      intro q h
      obtain ⟨hty, hval⟩ := h r (List.mem_cons_self _ _)
      have hadd : q.add_response r = .ok (q.setResponses (q.get_responses ++ [r])) := by
        rw [Question.add_response, if_neg (fun hh => hh hty), hval]
      rw [addAll, hadd]
      show addAll (q.setResponses (q.get_responses ++ [r])) rest =
        Except.ok (q.setResponses (q.get_responses ++ r :: rest))
      rw [ih (q.setResponses (q.get_responses ++ [r])) ?_]
      · rw [get_responses_setResponses, setResponses_setResponses, List.append_assoc,
          List.singleton_append]
      · intro r' hr'
        refine ⟨?_, ?_⟩
        · rw [get_type_setResponses]; exact (h r' (List.mem_cons_of_mem _ hr')).1
        · rw [validate_response_setResponses]
          exact (h r' (List.mem_cons_of_mem _ hr')).2

theorem initialize_responses_map (q : Question) (rs : List Response)
    (hwf : ∀ r ∈ rs, r.wf = true)
    (h : ∀ r ∈ rs, r.get_type = q.get_type ∧ q.validate_response r = .ok ()) :
    q.initialize_responses (rs.map (fun r => RespIn.dict r.json_data)) =
      .ok (q.setResponses (q.get_responses ++ rs)) := by
  rw [Question.initialize_responses]
  simp only [bind, Except.bind, toResponseObjects_map rs hwf]
  exact addAll_ok_of_valid rs q h

/-! ## Matching construction invariants (C4) -/

/-- **C4.**  A Matching construction succeeds only if every `answer` value
is a member of `left_choices` AND of `right_choices`; an `answer` value
absent from `right_choices` makes construction fail with a
ValidationError-kind error; and the `answer` keys are never checked against
`left_choices` (a construction whose answer key `"zzz"` is in neither
choice list succeeds). -/
theorem matching_answer_values_checked_keys_unchecked :
    (∀ (prompt : String) (left right : List String) (answer : List (String × String))
       (responses : List RespIn) (object_id : Option String) (q : Question),
       MatchingQuestion.init prompt left right answer responses object_id = .ok q →
       ∀ kv ∈ answer, kv.2 ∈ left ∧ kv.2 ∈ right) ∧
    (∀ (prompt : String) (left right : List String) (answer : List (String × String))
       (responses : List RespIn) (object_id : Option String) (kv : String × String),
       kv ∈ answer → kv.2 ∉ right →
       ∃ e, MatchingQuestion.init prompt left right answer responses object_id =
           .error e ∧ e.isValidationKind = true) ∧
    MatchingQuestion.init "p" ["a"] ["a"] [("zzz", "a")] [] none =
      .ok (Question.matching uuid4 "p" ["a"] ["a"] [("zzz", "a")] []) ∧
    "zzz" ∉ (["a"] : List String) := by
  refine ⟨?_, ?_, rfl, by decide⟩
  · intro p l r ans rs oid q h kv hkv
    obtain ⟨h1, h2, -⟩ := matching_init_ok_elim h
    rw [List.all_eq_true] at h1 h2
    constructor
    · exact mem_fromkeys.1 (by simpa using h1 kv hkv)
    · exact mem_fromkeys.1 (by simpa using h2 kv hkv)
  · intro p l r ans rs oid kv hkv hnr
    rw [MatchingQuestion.init]
    cases h1 : ans.all (fun kv => (fromkeys l).contains kv.2) with
    | false =>
        refine ⟨.valueErrorMatchingAnswerLeft, ?_, rfl⟩
        rw [if_pos (by decide)]
    | true =>
        have h2 : ans.all (fun kv => (fromkeys r).contains kv.2) = false := by
          cases h2 : ans.all (fun kv => (fromkeys r).contains kv.2) with
          | false => rfl
          | true =>
              rw [List.all_eq_true] at h2
              exact absurd (mem_fromkeys.1 (by simpa using h2 kv hkv)) hnr
        refine ⟨.valueErrorMatchingAnswerRight, ?_, rfl⟩
        rw [if_neg (by decide), if_pos (by simp only [h2]; decide)]

theorem matching_answer_values_checked_keys_unchecked_witness :
    ("a" ∈ (["a"] : List String) ∧ "a" ∈ (["a"] : List String)) ∧
    (∃ e, MatchingQuestion.init "p" ["a"] ["b"] [("k", "zz")] [] none = .error e ∧
      e.isValidationKind = true) :=
  ⟨matching_answer_values_checked_keys_unchecked.1 "p" ["a"] ["a"] [("zzz", "a")] []
      none _ rfl ("zzz", "a") (by decide),
    matching_answer_values_checked_keys_unchecked.2.1 "p" ["a"] ["b"] [("k", "zz")] []
      none ("k", "zz") (by decide) (by decide)⟩

/-! ## MultipleChoice response validation through add_response (C6) -/

/-- **C6.**  For a MultipleChoiceQuestion and a response of type
`multiple_choice`: a payload whose `choice` value is one of the question's
choices is accepted and appended last; a payload whose `choice` value is
not among the choices, or with no `choice` key at all, is rejected with a
ValidationError-kind error and the response sequence is unchanged. -/
theorem mc_add_response_validates_choice (oid prompt : String) (choices : List String)
    (answer : String) (resps : List Response) (r : Response)
    (hty : r.type = "multiple_choice") :
    (∀ v, dget r.payload "choice" = some v → jmem v choices = true →
       (Question.multipleChoice oid prompt choices answer resps).add_response_run r =
         (.ok (), Question.multipleChoice oid prompt choices answer (resps ++ [r]))) ∧
    (∀ v, dget r.payload "choice" = some v → jmem v choices = false →
       (Question.multipleChoice oid prompt choices answer resps).add_response_run r =
         (.error .valueErrorChoiceNotInChoices,
           Question.multipleChoice oid prompt choices answer resps) ∧
       QError.valueErrorChoiceNotInChoices.isValidationKind = true) ∧
    (dget r.payload "choice" = none →
       (Question.multipleChoice oid prompt choices answer resps).add_response_run r =
         (.error .valueErrorChoiceKeyMissing,
           Question.multipleChoice oid prompt choices answer resps) ∧
       QError.valueErrorChoiceKeyMissing.isValidationKind = true) := by
  have hgetc : dget r.json_data "choice" = dget r.payload "choice" :=
    json_data_dget_payload r _ (by decide) (by decide)
  have hty' : ¬ (r.get_type ≠
      (Question.multipleChoice oid prompt choices answer resps).get_type) := by
    rw [Response.get_type, hty]; exact fun hh => hh rfl
  refine ⟨?_, ?_, ?_⟩
  · intro v hv hm
    have hval : (Question.multipleChoice oid prompt choices answer
        resps).validate_response r = .ok () := by
      rw [Question.validate_response, hgetc, hv]
      show (if jmem v choices = true then Except.ok ()
          else Except.error QError.valueErrorChoiceNotInChoices) = Except.ok ()
      rw [if_pos hm]
    have hadd : (Question.multipleChoice oid prompt choices answer
        resps).add_response r = .ok (Question.multipleChoice oid prompt choices answer
        (resps ++ [r])) := by
      rw [Question.add_response, if_neg hty', hval]
      rfl
    rw [Question.add_response_run, hadd]
  · intro v hv hm
    have hval : (Question.multipleChoice oid prompt choices answer
        resps).validate_response r = .error .valueErrorChoiceNotInChoices := by
      rw [Question.validate_response, hgetc, hv]
      show (if jmem v choices = true then Except.ok ()
          else Except.error QError.valueErrorChoiceNotInChoices) =
        Except.error QError.valueErrorChoiceNotInChoices
      rw [if_neg (by simp only [hm]; decide)]
    have hadd : (Question.multipleChoice oid prompt choices answer
        resps).add_response r = .error .valueErrorChoiceNotInChoices := by
      rw [Question.add_response, if_neg hty', hval]
    exact ⟨by rw [Question.add_response_run, hadd], rfl⟩
  · intro hv
    have hval : (Question.multipleChoice oid prompt choices answer
        resps).validate_response r = .error .valueErrorChoiceKeyMissing := by
      rw [Question.validate_response, hgetc, hv]
    have hadd : (Question.multipleChoice oid prompt choices answer
        resps).add_response r = .error .valueErrorChoiceKeyMissing := by
      rw [Question.add_response, if_neg hty', hval]
    exact ⟨by rw [Question.add_response_run, hadd], rfl⟩

theorem mc_add_response_validates_choice_witness :
    (Question.multipleChoice "i" "2+2?" ["3", "4", "5"] "4" []).add_response_run
        ⟨"multiple_choice", [("choice", JValue.jstr "4")]⟩ =
      (.ok (), Question.multipleChoice "i" "2+2?" ["3", "4", "5"] "4"
        [⟨"multiple_choice", [("choice", JValue.jstr "4")]⟩]) ∧
    (Question.multipleChoice "i" "2+2?" ["3", "4", "5"] "4" []).add_response_run
        ⟨"multiple_choice", [("choice", JValue.jstr "9")]⟩ =
      (.error .valueErrorChoiceNotInChoices,
        Question.multipleChoice "i" "2+2?" ["3", "4", "5"] "4" []) ∧
    (Question.multipleChoice "i" "2+2?" ["3", "4", "5"] "4" []).add_response_run
        ⟨"multiple_choice", []⟩ =
      (.error .valueErrorChoiceKeyMissing,
        Question.multipleChoice "i" "2+2?" ["3", "4", "5"] "4" []) :=
  ⟨(mc_add_response_validates_choice "i" "2+2?" ["3", "4", "5"] "4" []
      ⟨"multiple_choice", [("choice", JValue.jstr "4")]⟩ rfl).1 (JValue.jstr "4") rfl rfl,
    ((mc_add_response_validates_choice "i" "2+2?" ["3", "4", "5"] "4" []
      ⟨"multiple_choice", [("choice", JValue.jstr "9")]⟩ rfl).2.1 (JValue.jstr "9")
      rfl rfl).1,
    ((mc_add_response_validates_choice "i" "2+2?" ["3", "4", "5"] "4" []
      ⟨"multiple_choice", []⟩ rfl).2.2 rfl).1⟩

/-! ## Matching response validation (C7) -/

/-- **C7, counterexample.**  The claim says every response whose payload
does not carry a well-shaped `answer_mapping` is rejected with a
ValidationError-kind error; but a payload whose `answer_mapping` is present
and not a mapping makes `validate_response` fail with `AttributeError`
(from calling `.keys()` on a non-mapping), which is not
ValidationError-kind. -/
theorem matching_validate_nonmapping_is_attributeerror :
    (Question.matching "i" "p" ["a"] ["b"] [] []).validate_response
        ⟨"matching", [("answer_mapping", JValue.jstr "x")]⟩ =
      .error .attributeErrorNoKeys ∧
    QError.attributeErrorNoKeys.isValidationKind = false :=
  ⟨rfl, rfl⟩

/-- **C7, amended.**  `MatchingQuestion.validate_response` accepts exactly
the responses whose payload carries an `answer_mapping` that is a mapping
whose key sequence equals `left_choices` (same order, length) and whose
values are each `None` or a member of `right_choices`; a missing
`answer_mapping`, a wrong key sequence, or a bad value each fail with a
ValidationError-kind error, while an `answer_mapping` that is present but
not a mapping fails with an AttributeError-kind error. -/
theorem matching_validate_response_cases (oid prompt : String)
    (left right : List String) (ans : List (String × String)) (resps : List Response)
    (r : Response) :
    (dget r.payload "answer_mapping" = none →
       (Question.matching oid prompt left right ans resps).validate_response r =
         .error .valueErrorNoAnswerMapping ∧
       QError.valueErrorNoAnswerMapping.isValidationKind = true) ∧
    (∀ am, dget r.payload "answer_mapping" = some (.jobj am) →
       (am.map Prod.fst = left →
          (am.map Prod.snd).all (fun v => jmemOrNone v right) = true →
          (Question.matching oid prompt left right ans resps).validate_response r =
            .ok ()) ∧
       (am.map Prod.fst ≠ left →
          (Question.matching oid prompt left right ans resps).validate_response r =
            .error .valueErrorLeftChoicesMismatch ∧
          QError.valueErrorLeftChoicesMismatch.isValidationKind = true) ∧
       (am.map Prod.fst = left →
          (am.map Prod.snd).all (fun v => jmemOrNone v right) = false →
          (Question.matching oid prompt left right ans resps).validate_response r =
            .error .valueErrorRightChoicesMismatch ∧
          QError.valueErrorRightChoicesMismatch.isValidationKind = true)) ∧
    (∀ v, dget r.payload "answer_mapping" = some v → (∀ am, v ≠ .jobj am) →
       (Question.matching oid prompt left right ans resps).validate_response r =
         .error .attributeErrorNoKeys) := by
  have hget : dget r.json_data "answer_mapping" = dget r.payload "answer_mapping" :=
    json_data_dget_payload r _ (by decide) (by decide)
  have hhk : hasKey r.json_data "answer_mapping" =
      (dget r.payload "answer_mapping").isSome := by
    rw [json_data_hasKey_payload r _ (by decide) (by decide), hasKey_eq_isSome]
  refine ⟨?_, ?_, ?_⟩
  · intro h0
    have hk : hasKey r.json_data "answer_mapping" = false := by rw [hhk, h0]; rfl
    refine ⟨?_, rfl⟩
    rw [Question.validate_response, if_pos (by rw [hk]; decide)]
  · intro am hv
    have hk : hasKey r.json_data "answer_mapping" = true := by rw [hhk, hv]; rfl
    have hred : (Question.matching oid prompt left right ans
        resps).validate_response r =
        (if ¬ am.map Prod.fst = left then
          Except.error QError.valueErrorLeftChoicesMismatch
        else if ¬ ((am.map Prod.snd).all (fun v => jmemOrNone v right)) = true then
          Except.error QError.valueErrorRightChoicesMismatch
        else Except.ok ()) := by
      rw [Question.validate_response, if_neg (by rw [hk]; decide), hget, hv]
    refine ⟨?_, ?_, ?_⟩
    · intro hkeys hvals
      rw [hred, if_neg (by simp [hkeys]), if_neg (by simp only [hvals]; decide)]
    · intro hne
      exact ⟨by rw [hred, if_pos hne], rfl⟩
    · intro hkeys hvals
      refine ⟨?_, rfl⟩
      rw [hred, if_neg (by simp [hkeys]), if_pos (by simp only [hvals]; decide)]
  · intro v hv hnot
    have hk : hasKey r.json_data "answer_mapping" = true := by rw [hhk, hv]; rfl
    cases v with
    | jobj entries => exact absurd rfl (hnot entries)
    | jnull => rw [Question.validate_response, if_neg (by rw [hk]; decide), hget, hv]
    | jstr s => rw [Question.validate_response, if_neg (by rw [hk]; decide), hget, hv]
    | jlist items => rw [Question.validate_response, if_neg (by rw [hk]; decide), hget, hv]

theorem matching_validate_response_cases_witness :
    (Question.matching "i" "p" ["a", "b"] ["x"] [] []).validate_response
        ⟨"matching", []⟩ = .error .valueErrorNoAnswerMapping ∧
    (Question.matching "i" "p" ["a", "b"] ["x"] [] []).validate_response
        ⟨"matching", [("answer_mapping",
          JValue.jobj [("a", JValue.jstr "x"), ("b", JValue.jnull)])]⟩ = .ok () ∧
    (Question.matching "i" "p" ["a", "b"] ["x"] [] []).validate_response
        ⟨"matching", [("answer_mapping", JValue.jobj [("a", JValue.jstr "x")])]⟩ =
      .error .valueErrorLeftChoicesMismatch ∧
    (Question.matching "i" "p" ["a", "b"] ["x"] [] []).validate_response
        ⟨"matching", [("answer_mapping",
          JValue.jobj [("a", JValue.jstr "nope"), ("b", JValue.jnull)])]⟩ =
      .error .valueErrorRightChoicesMismatch ∧
    (Question.matching "i" "p" ["a", "b"] ["x"] [] []).validate_response
        ⟨"matching", [("answer_mapping", JValue.jlist [])]⟩ =
      .error .attributeErrorNoKeys :=
  ⟨((matching_validate_response_cases "i" "p" ["a", "b"] ["x"] [] []
      ⟨"matching", []⟩).1 rfl).1,
    ((matching_validate_response_cases "i" "p" ["a", "b"] ["x"] [] []
      ⟨"matching", [("answer_mapping",
        JValue.jobj [("a", JValue.jstr "x"), ("b", JValue.jnull)])]⟩).2.1
      [("a", JValue.jstr "x"), ("b", JValue.jnull)] rfl).1 rfl rfl,
    (((matching_validate_response_cases "i" "p" ["a", "b"] ["x"] [] []
      ⟨"matching", [("answer_mapping", JValue.jobj [("a", JValue.jstr "x")])]⟩).2.1
      [("a", JValue.jstr "x")] rfl).2.1 (by decide)).1,
    (((matching_validate_response_cases "i" "p" ["a", "b"] ["x"] [] []
      ⟨"matching", [("answer_mapping",
        JValue.jobj [("a", JValue.jstr "nope"), ("b", JValue.jnull)])]⟩).2.1
      [("a", JValue.jstr "nope"), ("b", JValue.jnull)] rfl).2.2 rfl rfl).1,
    (matching_validate_response_cases "i" "p" ["a", "b"] ["x"] [] []
      ⟨"matching", [("answer_mapping", JValue.jlist [])]⟩).2.2 (JValue.jlist []) rfl
      (fun am h => by cases h)⟩

/-! ## The serialization round trip (C2) -/


theorem mk_mc_json (oid p a : String) (c : List String) (rs : List Response) :
    mkMultipleChoice [("object_id", .jstr oid), ("prompt", .jstr p),
      ("choices", .jlist (c.map .jstr)), ("answer", .jstr a),
      ("responses", .jlist (rs.map (fun r => .jobj r.json_data)))] =
    MultipleChoiceQuestion.init p c a (rs.map (fun r => RespIn.dict r.json_data))
      (some oid) := by
  simp [mkMultipleChoice, kwargsSubset, requiredArg, dget, decodeStr, decodeStrList,
    decodeResponses, decodeObjectId, decodeStrs_map, decodeRespItems_map, bind,
    Except.bind]

theorem mc_init_roundtrip (oid p : String) (c : List String) (a : String)
    (rs : List Response) (hdedup : fromkeys c = c) (hans : c.contains a = true)
    (hwf : ∀ r ∈ rs, r.wf = true)
    (hresp : ∀ r ∈ rs, r.get_type = (Question.multipleChoice oid p c a []).get_type ∧
      (Question.multipleChoice oid p c a []).validate_response r = .ok ()) :
    MultipleChoiceQuestion.init p c a (rs.map (fun r => RespIn.dict r.json_data))
      (some oid) = .ok (Question.multipleChoice oid p c a rs) := by
  rw [MultipleChoiceQuestion.init]
  simp only [Option.getD_some]
  rw [hdedup]
  simp only [bind, Except.bind]
  rw [initialize_responses_map (Question.multipleChoice oid p c a []) rs hwf hresp]
  show (if ¬ c.contains a = true then Except.error QError.valueErrorAnswerNotInChoices
      else Except.ok ((Question.multipleChoice oid p c a []).setResponses
        ((Question.multipleChoice oid p c a []).get_responses ++ rs))) =
    Except.ok (Question.multipleChoice oid p c a rs)
  rw [if_neg (by simp only [hans]; decide)]
  rfl



theorem mc_case (oid p : String) (c : List String) (a : String) (rs : List Response)
    (hv : (Question.multipleChoice oid p c a rs).valid = true) :
    dget (Question.multipleChoice oid p c a rs).json_data "type" =
      some (.jstr (Question.multipleChoice oid p c a rs).get_type) ∧
    create_a_question (Question.multipleChoice oid p c a rs).json_data =
      .ok (Question.multipleChoice oid p c a rs) := by
  simp only [Question.valid, Question.get_responses, Question.get_type,
    Bool.and_eq_true, List.all_eq_true, beq_iff_eq] at hv
  obtain ⟨⟨hded, hans⟩, hresp⟩ := hv
  refine ⟨rfl, ?_⟩
  have hstep : create_a_question (Question.multipleChoice oid p c a rs).json_data =
      mkMultipleChoice [("object_id", .jstr oid), ("prompt", .jstr p),
        ("choices", .jlist (c.map .jstr)), ("answer", .jstr a),
        ("responses", .jlist (rs.map (fun r => .jobj r.json_data)))] := rfl
  rw [hstep, mk_mc_json]
  exact mc_init_roundtrip oid p c a rs hded (by simpa using hans)
    (fun r hr => (hresp r hr).1.2)
    (fun r hr => ⟨(hresp r hr).1.1, exceptOk_unit (hresp r hr).2⟩)



theorem mk_matching_json (oid p : String) (l r : List String)
    (ans : List (String × String)) (rs : List Response) :
    mkMatching [("object_id", .jstr oid), ("prompt", .jstr p),
      ("left_choices", .jlist (l.map .jstr)), ("right_choices", .jlist (r.map .jstr)),
      ("answer", .jobj (ans.map (fun kv => (kv.1, .jstr kv.2)))),
      ("responses", .jlist (rs.map (fun rr => .jobj rr.json_data)))] =
    MatchingQuestion.init p l r ans (rs.map (fun rr => RespIn.dict rr.json_data))
      (some oid) := by
  simp [mkMatching, kwargsSubset, requiredArg, dget, decodeStr, decodeStrList,
    decodeStrPairs, decodeResponses, decodeObjectId, decodeStrs_map, decodePairs_map,
    decodeRespItems_map, bind, Except.bind]

theorem matching_init_roundtrip (oid p : String) (l r : List String)
    (ans : List (String × String)) (rs : List Response)
    (hdl : fromkeys l = l) (hdr : fromkeys r = r)
    (hall_l : ans.all (fun kv => l.contains kv.2) = true)
    (hall_r : ans.all (fun kv => r.contains kv.2) = true)
    (hwf : ∀ rr ∈ rs, rr.wf = true)
    (hresp : ∀ rr ∈ rs, rr.get_type = (Question.matching oid p l r ans []).get_type ∧
      (Question.matching oid p l r ans []).validate_response rr = .ok ()) :
    MatchingQuestion.init p l r ans (rs.map (fun rr => RespIn.dict rr.json_data))
      (some oid) = .ok (Question.matching oid p l r ans rs) := by
  rw [MatchingQuestion.init]
  simp only [Option.getD_some]
  rw [hdl, hdr]
  rw [if_neg (by simp only [hall_l]; decide), if_neg (by simp only [hall_r]; decide)]
  rw [initialize_responses_map (Question.matching oid p l r ans []) rs hwf hresp]
  rfl

theorem matching_case (oid p : String) (l r : List String)
    (ans : List (String × String)) (rs : List Response)
    (hv : (Question.matching oid p l r ans rs).valid = true) :
    dget (Question.matching oid p l r ans rs).json_data "type" =
      some (.jstr (Question.matching oid p l r ans rs).get_type) ∧
    create_a_question (Question.matching oid p l r ans rs).json_data =
      .ok (Question.matching oid p l r ans rs) := by
  simp only [Question.valid, Question.get_responses, Question.get_type,
    Bool.and_eq_true, List.all_eq_true, beq_iff_eq] at hv
  obtain ⟨⟨⟨hdl, hdr⟩, hans⟩, hresp⟩ := hv
  refine ⟨rfl, ?_⟩
  have hstep : create_a_question (Question.matching oid p l r ans rs).json_data =
      mkMatching [("object_id", .jstr oid), ("prompt", .jstr p),
        ("left_choices", .jlist (l.map .jstr)),
        ("right_choices", .jlist (r.map .jstr)),
        ("answer", .jobj (ans.map (fun kv => (kv.1, .jstr kv.2)))),
        ("responses", .jlist (rs.map (fun rr => .jobj rr.json_data)))] := rfl
  rw [hstep, mk_matching_json]
  exact matching_init_roundtrip oid p l r ans rs hdl hdr
    (List.all_eq_true.2 (fun kv hkv => by simpa using (hans kv hkv).1))
    (List.all_eq_true.2 (fun kv hkv => by simpa using (hans kv hkv).2))
    (fun rr hr => (hresp rr hr).1.2)
    (fun rr hr => ⟨(hresp rr hr).1.1, exceptOk_unit (hresp rr hr).2⟩)

theorem mk_sa_json (oid p a : String) (rs : List Response) :
    mkShortAnswer [("object_id", .jstr oid), ("prompt", .jstr p), ("answer", .jstr a),
      ("responses", .jlist (rs.map (fun r => .jobj r.json_data)))] =
    ShortAnswerQuestion.init p a (rs.map (fun r => RespIn.dict r.json_data))
      (some oid) := by
  simp [mkShortAnswer, kwargsSubset, requiredArg, dget, decodeStr, decodeResponses,
    decodeObjectId, decodeRespItems_map, bind, Except.bind]

theorem sa_init_roundtrip (oid p a : String) (rs : List Response)
    (hwf : ∀ r ∈ rs, r.wf = true)
    (hresp : ∀ r ∈ rs, r.get_type = (Question.shortAnswer oid p a []).get_type ∧
      (Question.shortAnswer oid p a []).validate_response r = .ok ()) :
    ShortAnswerQuestion.init p a (rs.map (fun r => RespIn.dict r.json_data))
      (some oid) = .ok (Question.shortAnswer oid p a rs) := by
  rw [ShortAnswerQuestion.init]
  simp only [Option.getD_some]
  rw [initialize_responses_map (Question.shortAnswer oid p a []) rs hwf hresp]
  rfl

theorem sa_case (oid p a : String) (rs : List Response)
    (hv : (Question.shortAnswer oid p a rs).valid = true) :
    dget (Question.shortAnswer oid p a rs).json_data "type" =
      some (.jstr (Question.shortAnswer oid p a rs).get_type) ∧
    create_a_question (Question.shortAnswer oid p a rs).json_data =
      .ok (Question.shortAnswer oid p a rs) := by
  simp only [Question.valid, Question.get_responses, Question.get_type,
    Bool.and_eq_true, List.all_eq_true, beq_iff_eq, Bool.true_and] at hv
  refine ⟨rfl, ?_⟩
  have hstep : create_a_question (Question.shortAnswer oid p a rs).json_data =
      mkShortAnswer [("object_id", .jstr oid), ("prompt", .jstr p),
        ("answer", .jstr a),
        ("responses", .jlist (rs.map (fun r => .jobj r.json_data)))] := rfl
  rw [hstep, mk_sa_json]
  exact sa_init_roundtrip oid p a rs
    (fun r hr => (hv r hr).1.2)
    (fun r hr => ⟨(hv r hr).1.1, exceptOk_unit (hv r hr).2⟩)

theorem mk_fitb_json (oid b aft a : String) (rs : List Response) :
    mkFillInTheBlank [("object_id", .jstr oid), ("before_prompt", .jstr b),
      ("after_prompt", .jstr aft), ("answer", .jstr a),
      ("responses", .jlist (rs.map (fun r => .jobj r.json_data)))] =
    FillInTheBlankQuestion.init b aft a (rs.map (fun r => RespIn.dict r.json_data))
      (some oid) := by
  simp [mkFillInTheBlank, kwargsSubset, requiredArg, dget, decodeStr, decodeResponses,
    decodeObjectId, decodeRespItems_map, bind, Except.bind]

theorem fitb_init_roundtrip (oid b aft a : String) (rs : List Response)
    (hwf : ∀ r ∈ rs, r.wf = true)
    (hresp : ∀ r ∈ rs,
      r.get_type = (Question.fillInTheBlank oid b aft a []).get_type ∧
      (Question.fillInTheBlank oid b aft a []).validate_response r = .ok ()) :
    FillInTheBlankQuestion.init b aft a (rs.map (fun r => RespIn.dict r.json_data))
      (some oid) = .ok (Question.fillInTheBlank oid b aft a rs) := by
  rw [FillInTheBlankQuestion.init]
  simp only [Option.getD_some]
  rw [initialize_responses_map (Question.fillInTheBlank oid b aft a []) rs hwf hresp]
  rfl

theorem fitb_case (oid b aft a : String) (rs : List Response)
    (hv : (Question.fillInTheBlank oid b aft a rs).valid = true) :
    dget (Question.fillInTheBlank oid b aft a rs).json_data "type" =
      some (.jstr (Question.fillInTheBlank oid b aft a rs).get_type) ∧
    create_a_question (Question.fillInTheBlank oid b aft a rs).json_data =
      .ok (Question.fillInTheBlank oid b aft a rs) := by
  simp only [Question.valid, Question.get_responses, Question.get_type,
    Bool.and_eq_true, List.all_eq_true, beq_iff_eq, Bool.true_and] at hv
  refine ⟨rfl, ?_⟩
  have hstep : create_a_question (Question.fillInTheBlank oid b aft a rs).json_data =
      mkFillInTheBlank [("object_id", .jstr oid), ("before_prompt", .jstr b),
        ("after_prompt", .jstr aft), ("answer", .jstr a),
        ("responses", .jlist (rs.map (fun r => .jobj r.json_data)))] := rfl
  rw [hstep, mk_fitb_json]
  exact fitb_init_roundtrip oid b aft a rs
    (fun r hr => (hv r hr).1.2)
    (fun r hr => ⟨(hv r hr).1.1, exceptOk_unit (hv r hr).2⟩)

/-- **C2.**  For every validly constructed Question (any of the four
variants, any attached responses, per the `Question.valid` invariants
established by the constructors), the serialized mapping's `type` tag
equals the variant tag, and `create_a_question` on `json_data` rebuilds a
structurally equal Question. -/
theorem valid_question_roundtrip (q : Question) (hv : q.valid = true) :
    dget q.json_data "type" = some (.jstr q.get_type) ∧
    create_a_question q.json_data = .ok q := by
  cases q with
  | multipleChoice oid p c a rs => exact mc_case oid p c a rs hv
  | matching oid p l r ans rs => exact matching_case oid p l r ans rs hv
  | shortAnswer oid p a rs => exact sa_case oid p a rs hv
  | fillInTheBlank oid b aft a rs => exact fitb_case oid b aft a rs hv

theorem valid_question_roundtrip_witness :
    (Question.multipleChoice "id1" "2+2?" ["3", "4", "5"] "4"
      [⟨"multiple_choice", [("choice", JValue.jstr "4")]⟩]).valid = true ∧
    dget (Question.multipleChoice "id1" "2+2?" ["3", "4", "5"] "4"
      [⟨"multiple_choice", [("choice", JValue.jstr "4")]⟩]).json_data "type" =
      some (.jstr (Question.multipleChoice "id1" "2+2?" ["3", "4", "5"] "4"
        [⟨"multiple_choice", [("choice", JValue.jstr "4")]⟩]).get_type) ∧
    create_a_question (Question.multipleChoice "id1" "2+2?" ["3", "4", "5"] "4"
      [⟨"multiple_choice", [("choice", JValue.jstr "4")]⟩]).json_data =
      .ok (Question.multipleChoice "id1" "2+2?" ["3", "4", "5"] "4"
        [⟨"multiple_choice", [("choice", JValue.jstr "4")]⟩]) :=
  ⟨rfl,
    (valid_question_roundtrip (Question.multipleChoice "id1" "2+2?" ["3", "4", "5"] "4"
      [⟨"multiple_choice", [("choice", JValue.jstr "4")]⟩]) rfl).1,
    (valid_question_roundtrip (Question.multipleChoice "id1" "2+2?" ["3", "4", "5"] "4"
      [⟨"multiple_choice", [("choice", JValue.jstr "4")]⟩]) rfl).2⟩

end Quiz
